import Mathlib

/-!
Verification development for the rob-core workflow run lifecycle and
result-schema/ranking components.

The run-state machine and the ranking query are embedded from the
specification (their implementation modules are not part of the sources
at hand; the unit tests in `tests/model/workflow/test_workflow_state.py`
pin the constructor defaults).  The result schema (`ResultColumn`,
`ResultSchema`, `SortColumn` in `flowserv/model/template/schema.py`) and
the run handle (`robcore/model/workflow/run.py`) are embedded directly
from the source.

Timestamps are modelled as natural numbers; the wall clock enters every
transition as an explicit parameter `t` (the value of `now` at call
time).
-/

namespace RobSpec


/-- Modelled from the spec: the error raised when a transition is
attempted from a state that does not admit it
(`InvalidStateTransition` in the error taxonomy). -/

inductive TransitionError where
  | invalidStateTransition
  deriving Repr, DecidableEq

/-- Modelled from the spec: the immutable run-state value
(`flowserv.model.workflow.state`, absent from the sources; shape per
spec section 3 and the unit tests).  `Pending` carries `created_at`;
`Running` adds `started_at`; `Canceled`/`Error` carry an optional
`started_at`, a `stopped_at` and a message list; `Success` carries the
timestamps and the list of result file references. -/

inductive WorkflowState where
  | pending (created_at : Nat)
  | running (created_at : Nat) (started_at : Nat)
  | canceled (created_at : Nat) (started_at : Option Nat)
      (stopped_at : Nat) (messages : List String)
  | failure (created_at : Nat) (started_at : Option Nat)
      (stopped_at : Nat) (messages : List String)
  | success (created_at : Nat) (started_at : Nat)
      (finished_at : Nat) (files : List String)
  deriving Repr, DecidableEq

namespace WorkflowState

/-- Predicate `is_pending` of the state classes. -/

def is_pending : WorkflowState → Bool
  | .pending _ => true
  | _ => false

/-- Predicate `is_running` of the state classes. -/

def is_running : WorkflowState → Bool
  | .running _ _ => true
  | _ => false

/-- Predicate `is_canceled` of the state classes. -/

def is_canceled : WorkflowState → Bool
  | .canceled _ _ _ _ => true
  | _ => false

/-- Predicate `is_error` of the state classes. -/

def is_error : WorkflowState → Bool
  | .failure _ _ _ _ => true
  | _ => false

/-- Predicate `is_success` of the state classes. -/

def is_success : WorkflowState → Bool
  | .success _ _ _ _ => true
  | _ => false

/-- Predicate `is_active`: a run is active while pending or running. -/

def is_active (s : WorkflowState) : Bool :=
  s.is_pending || s.is_running

/-- A state is terminal when it is canceled, in error, or successful. -/

def isTerminal (s : WorkflowState) : Bool :=
  s.is_canceled || s.is_error || s.is_success

/-- The `created_at` timestamp carried by every state variant. -/

def created_at : WorkflowState → Nat
  | .pending c => c
  | .running c _ => c
  | .canceled c _ _ _ => c
  | .failure c _ _ _ => c
  | .success c _ _ _ => c

/-- The `started_at` timestamp, when the variant has one. -/

def started_at : WorkflowState → Option Nat
  | .pending _ => none
  | .running _ st => some st
  | .canceled _ st _ _ => st
  | .failure _ st _ _ => st
  | .success _ st _ _ => some st

/-- The message list of a `Canceled` or `Error` state. -/

def messagesOf : WorkflowState → Option (List String)
  | .canceled _ _ _ m => some m
  | .failure _ _ _ m => some m
  | _ => none

end WorkflowState

/-- Modelled from the spec: default message list used by `cancel()`
when no messages are supplied (the unit test pins its length to one). -/

def CANCELED_DEFAULT_MESSAGES : List String := ["canceled at user request"]

/-- The four transition operations of the state machine, with their
optional arguments (`cancel`/`error` take an optional message list,
`success` takes the list of result files). -/

inductive Op where
  | opStart
  | opCancel (messages : Option (List String))
  | opError (messages : Option (List String))
  | opSuccess (files : List String)
  deriving Repr, DecidableEq

/-- Modelled from the spec: one transition call on a state value.
`start()` maps Pending to Running with `started_at = now`;
`cancel(messages?)` maps Pending or Running to Canceled with
`stopped_at = now`, using the non-empty default message list when no
messages are given; `error(messages?)` maps Pending or Running to Error
with `stopped_at = now` (the unit tests pin the Error constructor
default to the empty message list); `success(files)` maps Running to
Success with `finished_at = now`, recording the files.  Every other
combination fails with `InvalidStateTransition`. -/

def step (s : WorkflowState) (op : Op) (t : Nat) :
    Except TransitionError WorkflowState :=
  match s, op with
  | .pending c, .opStart => .ok (.running c t)
  | .pending c, .opCancel m =>
      .ok (.canceled c none t (m.getD CANCELED_DEFAULT_MESSAGES))
  | .pending c, .opError m => .ok (.failure c none t (m.getD []))
  | .running c st, .opCancel m =>
      .ok (.canceled c (some st) t (m.getD CANCELED_DEFAULT_MESSAGES))
  | .running c st, .opError m => .ok (.failure c (some st) t (m.getD []))
  | .running c st, .opSuccess files => .ok (.success c st t files)
  | _, _ => .error .invalidStateTransition

/-- The message list of the state a transition produced, when the call
succeeded and the resulting variant carries messages. -/

def msgsAfter (s : WorkflowState) (op : Op) (t : Nat) :
    Option (List String) :=
  match step s op t with
  | .ok s' => s'.messagesOf
  | .error _ => none

/-- The variant tag of a state, used to phrase the transition table. -/

inductive Tag where
  | pending | running | canceled | failed | succeeded
  deriving Repr, DecidableEq

/-- Tag of a state value. -/

def tagOf : WorkflowState → Tag
  | .pending _ => .pending
  | .running _ _ => .running
  | .canceled _ _ _ _ => .canceled
  | .failure _ _ _ _ => .failed
  | .success _ _ _ _ => .succeeded

/-- The name of the operation a transition call invokes. -/

inductive OpName where
  | start | cancel | err | succeed
  deriving Repr, DecidableEq

/-- Operation name of a transition call. -/

def opKind : Op → OpName
  | .opStart => .start
  | .opCancel _ => .cancel
  | .opError _ => .err
  | .opSuccess _ => .succeed

/-- The transition table stated by the spec: the six admitted
source-state/operation pairs with the variant each produces; `none`
for every other pair. -/

def specAllowed : Tag → OpName → Option Tag
  | .pending, .start => some .running
  | .pending, .cancel => some .canceled
  | .pending, .err => some .failed
  | .running, .cancel => some .canceled
  | .running, .err => some .failed
  | .running, .succeed => some .succeeded
  | _, _ => none

/-- Modelled from the spec: state values are immutable; a transition
call never modifies the receiving instance, it either returns a fresh
state value or fails. -/

def receiverAfter (s : WorkflowState) (_op : Op) (_t : Nat) :
    WorkflowState := s

/-! Result schema (`flowserv/model/template/schema.py`). -/

/-- Identifier of the integer parameter type (constant `PARA_INT` of
`flowserv.model.parameter.numeric`, value taken as the literal it is
defined to elsewhere in the project). -/

def PARA_INT : String := "int"

/-- Identifier of the float parameter type (`PARA_FLOAT`). -/

def PARA_FLOAT : String := "float"

/-- Identifier of the string parameter type (`PARA_STRING`). -/

def PARA_STRING : String := "string"

/-- Supported data types for result values (`DATA_TYPES`). -/

def DATA_TYPES : List String := [PARA_FLOAT, PARA_INT, PARA_STRING]

/-- Error raised on malformed templates and schemas
(`flowserv.error.InvalidTemplateError`). -/

inductive TemplateError where
  | invalidTemplate (msg : String)
  deriving Repr, DecidableEq

/-- True exactly when an `Except` value is a success. -/

def exOk {ε α : Type} : Except ε α → Bool
  | .ok _ => true
  | .error _ => false

/-- A scalar value of a result document: a Python `int`, `float`
(modelled exactly as a rational) or `str`. -/

inductive PyVal where
  | pyInt (n : Int)
  | pyFloat (q : Rat)
  | pyStr (s : String)
  deriving Repr, DecidableEq

/-- Value of a decimal digit string, if every character is a digit and
the string is non-empty. -/

def digitsVal (cs : List Char) : Option Nat :=
  match cs with
  | [] => none
  | _ =>
    cs.foldl
      (fun acc ch =>
        match acc with
        | none => none
        | some n => if ch.isDigit then some (n * 10 + (ch.toNat - 48)) else none)
      (some 0)

/-- Model of Python `int` applied to a string: an optional sign
followed by a non-empty run of digits; anything else raises
`ValueError`. -/

def parseIntStr (s : String) : Option Int :=
  match s.toList with
  | '-' :: rest => (digitsVal rest).map (fun n => -(n : Int))
  | '+' :: rest => (digitsVal rest).map (fun n => (n : Int))
  | cs => (digitsVal cs).map (fun n => (n : Int))

/-- Model of Python `float` applied to a string: an optional sign, an
integer part, and an optional fractional part after a dot. -/

def parseFloatStr (s : String) : Option Rat :=
  let unsigned : List Char → Option Rat := fun cs =>
    match cs.splitOn '.' with
    | [whole] => (digitsVal whole).map (fun n => (n : Rat))
    | [whole, frac] =>
        match digitsVal whole, digitsVal frac with
        | some w, some f =>
            some ((w : Rat) + (f : Rat) / ((10 : Rat) ^ frac.length))
        | _, _ => none
    | _ => none
  match s.toList with
  | '-' :: rest => (unsigned rest).map (fun q => -q)
  | '+' :: rest => unsigned rest
  | cs => unsigned cs

/-- Truncation of a rational toward zero, the behaviour of Python
`int` applied to a float. -/

def ratTrunc (q : Rat) : Int :=
  if 0 ≤ q.num then (q.num.natAbs / q.den : Nat)
  else -((q.num.natAbs / q.den : Nat) : Int)

/-- Model of Python `int(value)` on a scalar: identity on ints,
truncation on floats, digit-string parsing on strings. -/

def intConv : PyVal → Option Int
  | .pyInt n => some n
  | .pyFloat q => some (ratTrunc q)
  | .pyStr s => parseIntStr s

/-- Model of Python `float(value)` on a scalar. -/

def floatConv : PyVal → Option Rat
  | .pyInt n => some (n : Rat)
  | .pyFloat q => some q
  | .pyStr s => parseFloatStr s

/-- Model of Python `str(value)` on a scalar (never fails; the exact
rendering of numbers is irrelevant to the properties proved here). -/

def strConv : PyVal → String
  | .pyInt n => toString n
  | .pyFloat q => toString q
  | .pyStr s => s

/-- The `ValueError` raised by a failing type cast. -/

inductive CastError where
  | valueError
  deriving Repr, DecidableEq

/-- Column in the result schema of a benchmark (`ResultColumn`), after
successful construction: unique identifier, display name, data type,
optional extraction path, required flag (defaulted to true). -/

structure ResultColumn where
  column_id : String
  name : String
  dtype : String
  path : Option String
  required : Bool
  deriving Repr, DecidableEq

/-- Constructor of `ResultColumn`: raises `InvalidTemplateError` when
the data type is not in `DATA_TYPES`; a missing `required` argument
defaults to true. -/

def ResultColumn.make (column_id name dtype : String)
    (path : Option String) (required : Option Bool) :
    Except TemplateError ResultColumn :=
  if DATA_TYPES.contains dtype then
    .ok ⟨column_id, name, dtype, path, required.getD true⟩
  else
    .error (.invalidTemplate "unknown data type")

/-- `ResultColumn.cast`: convert the value to the data type of the
column; `int(value)` for integer columns, `float(value)` for float
columns, `str(value)` otherwise; a failing conversion raises
`ValueError`. -/

def ResultColumn.cast (col : ResultColumn) (value : PyVal) :
    Except CastError PyVal :=
  if col.dtype == PARA_INT then
    match intConv value with
    | some n => .ok (.pyInt n)
    | none => .error .valueError
  else if col.dtype == PARA_FLOAT then
    match floatConv value with
    | some q => .ok (.pyFloat q)
    | none => .error .valueError
  else
    .ok (.pyStr (strConv value))

/-- `ResultColumn.jpath`: the key path into the nested result document,
the path split on slashes when set, else the singleton column id. -/

def ResultColumn.jpath (col : ResultColumn) : List String :=
  match col.path with
  | some p => p.splitOn "/"
  | none => [col.column_id]

/-- Sort column of an ORDER BY statement (`SortColumn`): column
reference and descending flag (defaulted to true). -/

structure SortColumn where
  column_id : String
  sort_desc : Bool
  deriving Repr, DecidableEq

/-- The result schema of a benchmark (`ResultSchema`): result file
identifier, column list, default sort order (defaulted to the empty
list by the constructor). -/

structure ResultSchema where
  result_file : String
  columns : List ResultColumn
  order_by : List SortColumn
  deriving Repr, DecidableEq

/-- Dictionary serialization of a result column, with the mandatory
keys `name`, `label`, `dtype` present and the optional keys `path` and
`required` as options (a structurally valid document, i.e. one that
passes `util.validate_doc`). -/

structure ColumnDoc where
  name : String
  label : String
  dtype : String
  path : Option String
  required : Option Bool
  deriving Repr, DecidableEq

/-- Dictionary serialization of a sort column: mandatory key `name`,
optional key `sortDesc`. -/

structure SortDoc where
  name : String
  sortDesc : Option Bool
  deriving Repr, DecidableEq

/-- Dictionary serialization of a result schema: mandatory keys `file`
and `schema`, optional key `orderBy` (an absent key and an empty list
are handled alike by `doc.get('orderBy', [])`). -/

structure SchemaDoc where
  file : String
  schema : List ColumnDoc
  orderBy : List SortDoc
  deriving Repr, DecidableEq

/-- `ResultColumn.from_dict` on a structurally valid document: build
the column from the `name`, `label`, `dtype`, `path` and `required`
entries; the constructor rejects unsupported data types. -/

def ResultColumn.from_dict (doc : ColumnDoc) :
    Except TemplateError ResultColumn :=
  ResultColumn.make doc.name doc.label doc.dtype doc.path doc.required

/-- `ResultColumn.to_dict`: serialize the column; `path` is written only
when set, which the option field models. -/

def ResultColumn.to_dict (col : ResultColumn) : ColumnDoc :=
  ⟨col.column_id, col.name, col.dtype, col.path, some col.required⟩

/-- `SortColumn.from_dict` on a structurally valid document: a missing
`sortDesc` key leaves the constructor default (descending). -/

def SortColumn.from_dict (doc : SortDoc) : SortColumn :=
  ⟨doc.name, doc.sortDesc.getD true⟩

/-- `SortColumn.to_dict`: serialize the sort column. -/

def SortColumn.to_dict (col : SortColumn) : SortDoc :=
  ⟨col.column_id, some col.sort_desc⟩

/-- The column objects of the serialized column list, in order; the
first unsupported data type aborts with `InvalidTemplateError`. -/

def colsFromDocs : List ColumnDoc → Except TemplateError (List ResultColumn)
  | [] => .ok []
  | d :: rest =>
    match ResultColumn.from_dict d with
    | .error e => .error e
    | .ok c =>
      match colsFromDocs rest with
      | .error e => .error e
      | .ok cs => .ok (c :: cs)

/-- The uniqueness scan of `ResultSchema.from_dict`: walk the columns
keeping the sets of identifiers and names seen so far; a repeated
identifier or name raises `InvalidTemplateError`. -/

def uniqCheck : List ResultColumn → List String → List String →
    Except TemplateError Unit
  | [], _, _ => .ok ()
  | col :: rest, ids, names =>
    if ids.contains col.column_id then
      .error (.invalidTemplate "duplicate column identifier")
    else if names.contains col.name then
      .error (.invalidTemplate "not unique column name")
    else
      uniqCheck rest (col.column_id :: ids) (col.name :: names)

/-- The order-by scan of `ResultSchema.from_dict`: deserialize each
sort column and require its reference to be a declared column id. -/

def orderCheck (ids : List String) : List SortDoc →
    Except TemplateError (List SortColumn)
  | [] => .ok []
  | d :: rest =>
    if ids.contains (SortColumn.from_dict d).column_id then
      match orderCheck ids rest with
      | .error e => .error e
      | .ok cs => .ok (SortColumn.from_dict d :: cs)
    else
      .error (.invalidTemplate "unknown column")

/-- Stage of `ResultSchema.from_dict` after the uniqueness scan
succeeded: build the order-by list, rejecting references to undeclared
columns, and assemble the schema. -/

def fromDictOrder (doc : SchemaDoc) (columns : List ResultColumn) :
    Except TemplateError ResultSchema :=
  match orderCheck (columns.map (fun c => c.column_id)) doc.orderBy with
  | .error e => .error e
  | .ok order_by => .ok ⟨doc.file, columns, order_by⟩

/-- Stage of `ResultSchema.from_dict` after the columns were built:
enforce unique column identifiers and names, then proceed to the
order-by list. -/

def fromDictCols (doc : SchemaDoc) (columns : List ResultColumn) :
    Except TemplateError ResultSchema :=
  match uniqCheck columns [] [] with
  | .error e => .error e
  | .ok _ => fromDictOrder doc columns

/-- `ResultSchema.from_dict` on a structurally valid document: build
the columns (rejecting unsupported data types), enforce unique column
identifiers and names, then build the order-by list (rejecting
references to undeclared columns). -/

def ResultSchema.from_dict (doc : SchemaDoc) :
    Except TemplateError ResultSchema :=
  match colsFromDocs doc.schema with
  | .error e => .error e
  | .ok columns => fromDictCols doc columns

/-- `ResultSchema.to_dict`: serialize the schema; the `orderBy` key is
always written. -/

def ResultSchema.to_dict (s : ResultSchema) : SchemaDoc :=
  ⟨s.result_file, s.columns.map ResultColumn.to_dict,
    s.order_by.map SortColumn.to_dict⟩

/-- `ResultSchema.get_default_order`: the declared order-by list when
non-empty, else a single descending sort column on the first declared
column; `none` models the index error on an empty column list. -/

def ResultSchema.get_default_order (s : ResultSchema) :
    Option (List SortColumn) :=
  if s.order_by.length > 0 then some s.order_by
  else
    match s.columns with
    | [] => none
    | col :: _ => some [⟨col.column_id, true⟩]

/-- True when an element of the list occurs in `seen` or repeats an
earlier element of the list. -/

def dupWith (seen : List String) : List String → Bool
  | [] => false
  | x :: xs => seen.contains x || dupWith (x :: seen) xs

/-- True when the list has a repeated element. -/

def hasDup (l : List String) : Bool := dupWith [] l

/-- The schema validity conditions as the spec words them: every
declared type is supported, no two columns share an identifier, no two
columns share a display name, and every order-by entry references a
declared column identifier. -/

def specValidationOk (doc : SchemaDoc) : Bool :=
  doc.schema.all (fun c => DATA_TYPES.contains c.dtype) &&
    !hasDup (doc.schema.map (fun c => c.name)) &&
    !hasDup (doc.schema.map (fun c => c.label)) &&
    doc.orderBy.all (fun o => (doc.schema.map (fun c => c.name)).contains o.name)

/-- A concrete valid schema used by the C9 witness. -/

def sampleSchema : ResultSchema :=
  ⟨"results/analytics.json",
    [⟨"col1", "Column 1", "int", none, true⟩,
      ⟨"col2", "Column 2", "string", some "a/b", false⟩],
    [⟨"col1", true⟩]⟩

/-! Ranking / leaderboard query (`BenchmarkRepository.get_leaderboard`,
delegating to `robcore.model.ranking.query`). -/

/-- Modelled from the spec: one leaderboard entry
(`RankingEntry` in the data model) — a run identifier, the identifier
of the owning submission (the spec's group), and the typed result
values keyed by column identifier. -/

structure RankingEntry where
  run_id : String
  submission_id : String
  values : List (String × PyVal)
  deriving Repr, DecidableEq

/-- Modelled from the spec: the per-group collapse of
`robcore.model.ranking.query` (absent from the sources) when
`include_all` is false — walk the sorted ranking and keep an entry only
when its submission has not been seen yet. -/

def filterTopRanked (seen : List String) :
    List RankingEntry → List RankingEntry
  | [] => []
  | e :: rest =>
    if seen.contains e.submission_id then filterTopRanked seen rest
    else e :: filterTopRanked (e.submission_id :: seen) rest

/-- Modelled from the spec: the leaderboard built from the fully sorted
ranking (`entries` in sort order): all entries when `include_all` is
true, at most one per submission otherwise. -/

def leaderboard (entries : List RankingEntry) (include_all : Bool) :
    List RankingEntry :=
  if include_all then entries else filterTopRanked [] entries

/-! Run handle (`robcore/model/workflow/run.py`). -/

/-- Modelled from the spec: a file resource generated by a successful
workflow run (`robcore.model.workflow.resource.FileResource`, absent
from the sources): a resource identifier and a file reference. -/

structure FileResource where
  resource_id : String
  file_ref : String
  deriving Repr, DecidableEq

/-- Modelled from the spec: the robcore run state carried by a run
handle — the same five variants as the spec's RunState, with the
Success variant recording its generated file resources keyed by
resource identifier. -/

inductive RobState where
  | pending (created_at : Nat)
  | running (created_at : Nat) (started_at : Nat)
  | canceled (created_at : Nat) (started_at : Option Nat)
      (stopped_at : Nat) (messages : List String)
  | failure (created_at : Nat) (started_at : Option Nat)
      (stopped_at : Nat) (messages : List String)
  | success (created_at : Nat) (started_at : Nat) (finished_at : Nat)
      (files : List (String × FileResource))
  deriving Repr, DecidableEq

namespace RobState

/-- Predicate `is_success` of the robcore state classes. -/

def is_success : RobState → Bool
  | .success _ _ _ _ => true
  | _ => false

/-- The `files` dictionary of a Success state (the attribute only
exists on Success; the handle guards every access with
`is_success`). -/

def filesOf : RobState → List (String × FileResource)
  | .success _ _ _ files => files
  | _ => []

/-- Modelled from the spec: `StateSuccess.get_resource` — look the
identifier up in the recorded files dictionary. -/

def get_resource (s : RobState) (identifier : String) :
    Option FileResource :=
  ((s.filesOf).find? (fun kv => kv.1 == identifier)).map (fun kv => kv.2)

end RobState

/-- `RunHandle`: run identifier, owning submission identifier, current
state, and the user-provided argument dictionary. -/

structure RunHandle where
  identifier : String
  submission_id : String
  state : RobState
  arguments : List (String × String)
  deriving Repr, DecidableEq

namespace RunHandle

/-- `RunHandle.is_success`: delegate to the state. -/

def is_success (h : RunHandle) : Bool := h.state.is_success

/-- `RunHandle.get_resource`: `None` unless the run succeeded, else the
state's resource lookup. -/

def get_resource (h : RunHandle) (identifier : String) :
    Option FileResource :=
  if !(h.is_success) then none
  else h.state.get_resource identifier

/-- `RunHandle.list_resources`: the empty list unless the run
succeeded, else the values of the state's files dictionary. -/

def list_resources (h : RunHandle) : List FileResource :=
  if !(h.is_success) then []
  else (h.state.filesOf).map (fun kv => kv.2)

end RunHandle

/-! Theorems settling the claims, and their supporting lemmas. -/

/-- C1: the run-state machine admits exactly the six transitions
Pending→Running (start), Pending→Canceled and Running→Canceled
(cancel), Pending→Error and Running→Error (error), and Running→Success
(success); for every state value and operation outside this set the
call fails with `InvalidStateTransition`. -/

theorem c1_transition_table (s : WorkflowState) (op : Op) (t : Nat) :
    match specAllowed (tagOf s) (opKind op) with
    | some tg => ∃ s', step s op t = .ok s' ∧ tagOf s' = tg
    | none => step s op t = .error .invalidStateTransition := by
  cases s <;> cases op <;> first
    | exact ⟨_, rfl, rfl⟩
    | rfl

/-- C2: on a terminal state (Canceled, Error, or Success) every
transition call fails with `InvalidStateTransition`; the receiving
instance is unchanged by the failed call (state values are immutable,
so the receiver after the call is the very value it was before). -/

theorem c2_terminal_rejects (s : WorkflowState) (op : Op) (t : Nat)
    (h : s.isTerminal = true) :
    step s op t = .error .invalidStateTransition ∧
      receiverAfter s op t = s := by
  refine ⟨?_, rfl⟩
  cases s <;> cases op <;> first
    | rfl
    | simp [WorkflowState.isTerminal, WorkflowState.is_canceled,
        WorkflowState.is_error, WorkflowState.is_success] at h

/-- Witness for C2 at a concrete canceled state and a start call. -/

theorem c2_terminal_rejects_witness :
    step (WorkflowState.canceled 0 none 1 ["m"]) Op.opStart 5 =
        .error .invalidStateTransition ∧
      receiverAfter (WorkflowState.canceled 0 none 1 ["m"]) Op.opStart 5 =
        WorkflowState.canceled 0 none 1 ["m"] :=
  c2_terminal_rejects (WorkflowState.canceled 0 none 1 ["m"]) Op.opStart 5
    (by decide)

/-- C3 counterexample: `error()` called on a Pending state with no
messages argument produces a state whose message list is empty, not a
non-empty default — refuting the claim that both `cancel()` and
`error()` default to a non-empty list (the unit test for the Error
state pins the no-message default to length zero). -/

theorem c3_counterexample :
    msgsAfter (WorkflowState.pending 0) (Op.opError none) 5 =
      some ([] : List String) := rfl

/-- C3 amended: from every Pending or Running state, `cancel()` with no
messages produces the one-element default message list; `error()` with
no messages produces an empty message list; with an explicit message
list, both `cancel` and `error` produce a state whose message list
equals exactly the given list. -/

theorem c3_messages (s : WorkflowState) (t : Nat) (msgs : List String)
    (h : s.is_active = true) :
    msgsAfter s (Op.opCancel none) t = some CANCELED_DEFAULT_MESSAGES ∧
      msgsAfter s (Op.opCancel (some msgs)) t = some msgs ∧
      msgsAfter s (Op.opError none) t = some ([] : List String) ∧
      msgsAfter s (Op.opError (some msgs)) t = some msgs := by
  cases s <;> first
    | exact ⟨rfl, rfl, rfl, rfl⟩
    | simp [WorkflowState.is_active, WorkflowState.is_pending,
        WorkflowState.is_running] at h

/-- Witness for C3 at a concrete Running state: the explicit two-element
list is kept as is, the no-message cancel yields the default list. -/

theorem c3_messages_witness :
    msgsAfter (WorkflowState.running 0 1) (Op.opCancel none) 7 =
        some CANCELED_DEFAULT_MESSAGES ∧
      msgsAfter (WorkflowState.running 0 1) (Op.opCancel (some ["by", "user"])) 7 =
        some ["by", "user"] ∧
      msgsAfter (WorkflowState.running 0 1) (Op.opError none) 7 =
        some ([] : List String) ∧
      msgsAfter (WorkflowState.running 0 1) (Op.opError (some ["by", "user"])) 7 =
        some ["by", "user"] :=
  c3_messages (WorkflowState.running 0 1) 7 ["by", "user"] (by decide)

/-- C8: `start()` on a Pending state returns a Running state whose
`created_at` equals that of the Pending state and whose `started_at` is
set to the call time `t`, which is at least `created_at` whenever the
clock has not moved backwards since creation. -/

theorem c8_start_preserves_created (c t : Nat) (h : c ≤ t) :
    step (WorkflowState.pending c) Op.opStart t =
        .ok (WorkflowState.running c t) ∧
      (WorkflowState.running c t).created_at =
        (WorkflowState.pending c).created_at ∧
      (WorkflowState.running c t).started_at = some t ∧
      (WorkflowState.pending c).created_at ≤ t :=
  ⟨rfl, rfl, rfl, h⟩

/-- Witness for C8 at `created_at = 2`, call time `5`. -/

theorem c8_start_preserves_created_witness :
    step (WorkflowState.pending 2) Op.opStart 5 =
        .ok (WorkflowState.running 2 5) ∧
      (WorkflowState.running 2 5).created_at =
        (WorkflowState.pending 2).created_at ∧
      (WorkflowState.running 2 5).started_at = some 5 ∧
      (WorkflowState.pending 2).created_at ≤ 5 :=
  c8_start_preserves_created 2 5 (by decide)

theorem ResultColumn.from_dict_isOk (d : ColumnDoc) :
    exOk (ResultColumn.from_dict d) = DATA_TYPES.contains d.dtype := by
  simp only [ResultColumn.from_dict, ResultColumn.make]
  split
  next h => rw [h]; rfl
  next h =>
    simp only [Bool.not_eq_true] at h
    rw [h]; rfl

theorem colsFromDocs_isOk (docs : List ColumnDoc) :
    exOk (colsFromDocs docs) =
      docs.all (fun d => DATA_TYPES.contains d.dtype) := by
  induction docs with
  | nil => rfl
  | cons d rest ih =>
    have hd0 := ResultColumn.from_dict_isOk d
    simp only [colsFromDocs, List.all_cons]
    cases hd : ResultColumn.from_dict d with
    | error e =>
      rw [hd] at hd0
      have hf : DATA_TYPES.contains d.dtype = false := hd0.symm
      rw [hf, Bool.false_and]
      rfl
    | ok c =>
      rw [hd] at hd0
      have ht : DATA_TYPES.contains d.dtype = true := hd0.symm
      rw [ht, Bool.true_and, ← ih]
      cases hr : colsFromDocs rest with
      | error e => rfl
      | ok cs => rfl

theorem colsFromDocs_maps (docs : List ColumnDoc)
    (cols : List ResultColumn) (h : colsFromDocs docs = .ok cols) :
    cols.map (fun c => c.column_id) = docs.map (fun d => d.name) ∧
      cols.map (fun c => c.name) = docs.map (fun d => d.label) := by
  induction docs generalizing cols with
  | nil =>
    simp only [colsFromDocs] at h
    cases h
    exact ⟨rfl, rfl⟩
  | cons d rest ih =>
    simp only [colsFromDocs] at h
    cases hd : ResultColumn.from_dict d with
    | error e => rw [hd] at h; cases h
    | ok c =>
      rw [hd] at h
      cases hr : colsFromDocs rest with
      | error e => rw [hr] at h; cases h
      | ok cs =>
        rw [hr] at h
        cases h
        have hmk : c.column_id = d.name ∧ c.name = d.label := by
          simp only [ResultColumn.from_dict, ResultColumn.make] at hd
          split at hd
          · cases hd; exact ⟨rfl, rfl⟩
          · cases hd
        obtain ⟨h1, h2⟩ := ih cs hr
        simp [hmk.1, hmk.2, h1, h2]

theorem uniqCheck_isOk (cols : List ResultColumn)
    (ids names : List String) :
    exOk (uniqCheck cols ids names) =
      (!dupWith ids (cols.map (fun c => c.column_id)) &&
        !dupWith names (cols.map (fun c => c.name))) := by
  induction cols generalizing ids names with
  | nil => rfl
  | cons col rest ih =>
    simp only [uniqCheck, List.map_cons, dupWith]
    split
    next h =>
      rw [h, Bool.true_or, Bool.not_true, Bool.false_and]
      rfl
    next h =>
      simp only [Bool.not_eq_true] at h
      rw [h, Bool.false_or]
      split
      next h2 =>
        rw [h2, Bool.true_or, Bool.not_true, Bool.and_false]
        rfl
      next h2 =>
        simp only [Bool.not_eq_true] at h2
        rw [h2, Bool.false_or]
        exact ih _ _

theorem orderCheck_isOk (ids : List String) (docs : List SortDoc) :
    exOk (orderCheck ids docs) =
      docs.all (fun d => ids.contains d.name) := by
  induction docs with
  | nil => rfl
  | cons d rest ih =>
    simp only [orderCheck, List.all_cons]
    split
    next h =>
      have hn : ids.contains d.name = true := h
      rw [hn, Bool.true_and, ← ih]
      cases hr : orderCheck ids rest with
      | error e => rfl
      | ok cs => rfl
    next h =>
      simp only [Bool.not_eq_true] at h
      have hn : ids.contains d.name = false := h
      rw [hn, Bool.false_and]
      rfl

/-- C5: constructing a result schema from a structurally valid
serialization fails with `InvalidTemplateError` exactly when two
columns share an identifier, or two columns share a display name, or
some declared type is unsupported, or some order-by entry references an
undeclared column identifier; construction succeeds otherwise. -/

theorem c5_schema_validation (doc : SchemaDoc) :
    exOk (ResultSchema.from_dict doc) = specValidationOk doc := by
  have hall := colsFromDocs_isOk doc.schema
  simp only [ResultSchema.from_dict, specValidationOk, hasDup]
  cases hc : colsFromDocs doc.schema with
  | error e =>
    rw [hc] at hall
    have ha : doc.schema.all (fun c => DATA_TYPES.contains c.dtype) = false :=
      hall.symm
    rw [ha, Bool.false_and, Bool.false_and, Bool.false_and]
    rfl
  | ok cols =>
    rw [hc] at hall
    have ha : doc.schema.all (fun c => DATA_TYPES.contains c.dtype) = true :=
      hall.symm
    obtain ⟨hids, hnms⟩ := colsFromDocs_maps doc.schema cols hc
    have huo := uniqCheck_isOk cols [] []
    rw [ha, Bool.true_and, ← hids, ← hnms]
    show exOk (fromDictCols doc cols) = _
    simp only [fromDictCols]
    cases hu : uniqCheck cols [] [] with
    | error e =>
      rw [hu] at huo
      have hxy : (!dupWith [] (cols.map (fun c => c.column_id)) &&
          !dupWith [] (cols.map (fun c => c.name))) = false := huo.symm
      rw [hxy, Bool.false_and]
      rfl
    | ok u =>
      rw [hu] at huo
      have hxy : (!dupWith [] (cols.map (fun c => c.column_id)) &&
          !dupWith [] (cols.map (fun c => c.name))) = true := huo.symm
      rw [hxy, Bool.true_and]
      show exOk (fromDictOrder doc cols) = _
      simp only [fromDictOrder]
      have hoo := orderCheck_isOk (cols.map (fun c => c.column_id)) doc.orderBy
      cases ho : orderCheck (cols.map (fun c => c.column_id)) doc.orderBy with
      | error e =>
        rw [ho] at hoo
        have hf : doc.orderBy.all
            (fun d => (cols.map (fun c => c.column_id)).contains d.name) =
            false := hoo.symm
        rw [hf]
        rfl
      | ok order_by =>
        rw [ho] at hoo
        have ht : doc.orderBy.all
            (fun d => (cols.map (fun c => c.column_id)).contains d.name) =
            true := hoo.symm
        rw [ht]
        rfl

/-- C6: `cast` converts the value to the column's declared scalar type
— an integer column yields an int (and keeps ints as they are), a float
column yields a float (and keeps floats as they are), any other column
yields the string rendering (and keeps strings as they are) — and the
only other outcome is the `ValueError` conversion fault, which the
non-numeric string `"abc"` cast against an integer column does hit. -/

theorem c6_cast_typed (col : ResultColumn) (v : PyVal) :
    (col.dtype = PARA_INT →
      ((∃ n, col.cast v = .ok (.pyInt n)) ∨ col.cast v = .error .valueError) ∧
      (∀ n, col.cast (.pyInt n) = .ok (.pyInt n)) ∧
      col.cast (.pyStr "abc") = .error .valueError) ∧
    (col.dtype = PARA_FLOAT →
      ((∃ q, col.cast v = .ok (.pyFloat q)) ∨ col.cast v = .error .valueError) ∧
      (∀ q, col.cast (.pyFloat q) = .ok (.pyFloat q))) ∧
    (col.dtype ≠ PARA_INT → col.dtype ≠ PARA_FLOAT →
      col.cast v = .ok (.pyStr (strConv v)) ∧
      (∀ s, col.cast (.pyStr s) = .ok (.pyStr s))) := by
  refine ⟨fun h => ?_, fun h => ?_, fun h1 h2 => ?_⟩
  · refine ⟨?_, ?_, ?_⟩
    · cases hv : intConv v with
      | some n => exact Or.inl ⟨n, by simp [ResultColumn.cast, h, hv]⟩
      | none => exact Or.inr (by simp [ResultColumn.cast, h, hv])
    · intro n; simp [ResultColumn.cast, h, intConv]
    · simp [ResultColumn.cast, h, intConv, parseIntStr, digitsVal]
  · refine ⟨?_, ?_⟩
    · cases hv : floatConv v with
      | some q =>
        exact Or.inl ⟨q, by simp [ResultColumn.cast, h, hv, PARA_INT, PARA_FLOAT]⟩
      | none =>
        exact Or.inr (by simp [ResultColumn.cast, h, hv, PARA_INT, PARA_FLOAT])
    · intro q
      simp [ResultColumn.cast, h, floatConv, PARA_INT, PARA_FLOAT]
  · have hn1 : (col.dtype == PARA_INT) = false := by
      simp [h1]
    have hn2 : (col.dtype == PARA_FLOAT) = false := by
      simp [h2]
    refine ⟨by simp [ResultColumn.cast, hn1, hn2], fun s => ?_⟩
    simp [ResultColumn.cast, hn1, hn2, strConv]

/-- Witness for C6: an integer column keeps the int `7`, rejects the
string `"abc"`, and a string column keeps strings unchanged. -/

theorem c6_cast_typed_witness :
    (⟨"c1", "C1", "int", none, true⟩ : ResultColumn).cast (.pyInt 7) =
        .ok (.pyInt 7) ∧
      (⟨"c1", "C1", "int", none, true⟩ : ResultColumn).cast (.pyStr "abc") =
        .error .valueError ∧
      (⟨"c2", "C2", "string", none, true⟩ : ResultColumn).cast
          (.pyStr "abc") = .ok (.pyStr "abc") :=
  ⟨((c6_cast_typed ⟨"c1", "C1", "int", none, true⟩ (.pyInt 7)).1 rfl).2.1 7,
    ((c6_cast_typed ⟨"c1", "C1", "int", none, true⟩ (.pyInt 7)).1 rfl).2.2,
    ((c6_cast_typed ⟨"c2", "C2", "string", none, true⟩ (.pyStr "abc")).2.2
      (by decide) (by decide)).1⟩

/-- C7: for a schema with at least one column, the effective default
sort order is the declared order-by list when non-empty, and otherwise
the single descending sort column on the first declared column. -/

theorem c7_default_order (s : ResultSchema) (col : ResultColumn)
    (rest : List ResultColumn) (h : s.columns = col :: rest) :
    (s.order_by ≠ [] → s.get_default_order = some s.order_by) ∧
      (s.order_by = [] →
        s.get_default_order = some [⟨col.column_id, true⟩]) := by
  constructor
  · intro hne
    have hlen : s.order_by.length > 0 := List.length_pos.mpr hne
    simp [ResultSchema.get_default_order, hlen]
  · intro he
    simp [ResultSchema.get_default_order, he, h]

/-- Witness for C7 on a one-column schema with an empty order-by list. -/

theorem c7_default_order_witness :
    (⟨"res.json", [⟨"c1", "C1", "int", none, true⟩], []⟩ :
        ResultSchema).get_default_order = some [⟨"c1", true⟩] :=
  (c7_default_order ⟨"res.json", [⟨"c1", "C1", "int", none, true⟩], []⟩
    ⟨"c1", "C1", "int", none, true⟩ [] rfl).2 rfl

theorem sortColumn_roundtrip (sc : SortColumn) :
    SortColumn.from_dict (SortColumn.to_dict sc) = sc := rfl

theorem resultColumn_roundtrip (c : ResultColumn)
    (h : DATA_TYPES.contains c.dtype = true) :
    ResultColumn.from_dict (ResultColumn.to_dict c) = .ok c := by
  simp only [ResultColumn.from_dict, ResultColumn.to_dict, ResultColumn.make]
  rw [h]
  rfl

theorem colsFromDocs_roundtrip (cols : List ResultColumn)
    (h : cols.all (fun c => DATA_TYPES.contains c.dtype) = true) :
    colsFromDocs (cols.map ResultColumn.to_dict) = .ok cols := by
  induction cols with
  | nil => rfl
  | cons c rest ih =>
    simp only [List.all_cons, Bool.and_eq_true] at h
    simp only [List.map_cons, colsFromDocs, resultColumn_roundtrip c h.1,
      ih h.2]

theorem orderCheck_roundtrip (ids : List String) (ob : List SortColumn)
    (h : ob.all (fun o => ids.contains o.column_id) = true) :
    orderCheck ids (ob.map SortColumn.to_dict) = .ok ob := by
  induction ob with
  | nil => rfl
  | cons sc rest ih =>
    simp only [List.all_cons, Bool.and_eq_true] at h
    simp only [List.map_cons, orderCheck, sortColumn_roundtrip, h.1,
      if_true, ih h.2]

theorem exOk_unit {x : Except TemplateError Unit} (h : exOk x = true) :
    x = .ok () := by
  cases x with
  | ok u => cases u; rfl
  | error e => exact absurd h (by simp [exOk])

/-- C9: serializing a valid result schema and deserializing it yields
the schema back — and the column and sort-column serializations invert
likewise. -/

theorem c9_roundtrip (s : ResultSchema)
    (h1 : s.columns.all (fun c => DATA_TYPES.contains c.dtype) = true)
    (h2 : hasDup (s.columns.map (fun c => c.column_id)) = false)
    (h3 : hasDup (s.columns.map (fun c => c.name)) = false)
    (h4 : s.order_by.all
        (fun o => (s.columns.map (fun c => c.column_id)).contains
          o.column_id) = true) :
    ResultSchema.from_dict (ResultSchema.to_dict s) = .ok s ∧
      (∀ c : ResultColumn, DATA_TYPES.contains c.dtype = true →
        ResultColumn.from_dict (ResultColumn.to_dict c) = .ok c) ∧
      (∀ sc : SortColumn,
        SortColumn.from_dict (SortColumn.to_dict sc) = sc) := by
  refine ⟨?_, fun c hc => resultColumn_roundtrip c hc,
    fun sc => sortColumn_roundtrip sc⟩
  have hu : uniqCheck s.columns [] [] = .ok () := by
    apply exOk_unit
    rw [uniqCheck_isOk]
    rw [show dupWith [] (s.columns.map fun c => c.column_id) = false from h2]
    rw [show dupWith [] (s.columns.map fun c => c.name) = false from h3]
    rfl
  have hord : orderCheck (s.columns.map fun c => c.column_id)
      (s.order_by.map SortColumn.to_dict) = .ok s.order_by :=
    orderCheck_roundtrip _ _ h4
  simp only [ResultSchema.to_dict, ResultSchema.from_dict,
    colsFromDocs_roundtrip s.columns h1, fromDictCols, hu, fromDictOrder,
    hord]

/-- Witness for C9 on a concrete two-column schema. -/

theorem c9_roundtrip_witness :
    ResultSchema.from_dict (ResultSchema.to_dict sampleSchema) =
      .ok sampleSchema :=
  (c9_roundtrip sampleSchema (by decide) (by decide) (by decide)
    (by decide)).1

theorem filterTopRanked_sublist (seen : List String)
    (entries : List RankingEntry) :
    (filterTopRanked seen entries).Sublist entries := by
  induction entries generalizing seen with
  | nil => exact List.Sublist.refl []
  | cons e rest ih =>
    simp only [filterTopRanked]
    split
    · exact (ih seen).cons e
    · exact (ih (e.submission_id :: seen)).cons₂ e

theorem filterTopRanked_first (seen : List String)
    (entries : List RankingEntry) (e : RankingEntry)
    (he : e ∈ filterTopRanked seen entries) :
    seen.contains e.submission_id = false ∧
      entries.find? (fun x => x.submission_id == e.submission_id) =
        some e := by
  induction entries generalizing seen with
  | nil => cases he
  | cons a rest ih =>
    simp only [filterTopRanked] at he
    by_cases ha : seen.contains a.submission_id = true
    · rw [if_pos ha] at he
      obtain ⟨hs, hf⟩ := ih seen he
      refine ⟨hs, ?_⟩
      have hne : (a.submission_id == e.submission_id) = false := by
        cases hq : a.submission_id == e.submission_id with
        | false => rfl
        | true =>
          have heq := eq_of_beq hq
          rw [← heq] at hs
          rw [ha] at hs
          cases hs
      simp only [List.find?_cons, hne]
      exact hf
    · have ha' : seen.contains a.submission_id = false := by
        cases hq : seen.contains a.submission_id with
        | false => rfl
        | true => exact absurd hq ha
      rw [if_neg ha] at he
      cases he with
      | head =>
        refine ⟨ha', ?_⟩
        simp only [List.find?_cons, BEq.refl]
      | tail _ htail =>
        obtain ⟨hs, hf⟩ := ih (a.submission_id :: seen) htail
        simp only [List.contains_cons, Bool.or_eq_false_iff] at hs
        refine ⟨hs.2, ?_⟩
        have hne : (a.submission_id == e.submission_id) = false := by
          cases hq : a.submission_id == e.submission_id with
          | false => rfl
          | true =>
            have heq := eq_of_beq hq
            rw [heq] at hs
            simp at hs
        simp only [List.find?_cons, hne]
        exact hf

theorem filterTopRanked_pairwise (seen : List String)
    (entries : List RankingEntry) :
    List.Pairwise (fun a b => a.submission_id ≠ b.submission_id)
      (filterTopRanked seen entries) := by
  induction entries generalizing seen with
  | nil => exact List.Pairwise.nil
  | cons e rest ih =>
    simp only [filterTopRanked]
    split
    · exact ih seen
    · refine List.Pairwise.cons ?_ (ih (e.submission_id :: seen))
      intro b hb
      obtain ⟨hs, _⟩ := filterTopRanked_first _ _ b hb
      simp only [List.contains_cons, Bool.or_eq_false_iff] at hs
      intro hcontra
      rw [hcontra] at hs
      simp at hs

theorem filterTopRanked_covers (seen : List String)
    (entries : List RankingEntry) (e : RankingEntry) (he : e ∈ entries) :
    seen.contains e.submission_id = true ∨
      ∃ r ∈ filterTopRanked seen entries,
        r.submission_id = e.submission_id := by
  induction entries generalizing seen with
  | nil => cases he
  | cons a rest ih =>
    simp only [filterTopRanked]
    by_cases ha : seen.contains a.submission_id = true
    · rw [if_pos ha]
      cases he with
      | head => exact Or.inl ha
      | tail _ htail => exact ih seen htail
    · rw [if_neg ha]
      cases he with
      | head => exact Or.inr ⟨e, List.mem_cons_self _ _, rfl⟩
      | tail _ htail =>
        cases ih (a.submission_id :: seen) htail with
        | inl h =>
          simp only [List.contains_cons, Bool.or_eq_true] at h
          cases h with
          | inl h =>
            exact Or.inr ⟨a, List.mem_cons_self _ _, (eq_of_beq h).symm⟩
          | inr h => exact Or.inl h
        | inr h =>
          obtain ⟨r, hr, hid⟩ := h
          exact Or.inr ⟨r, List.mem_cons_of_mem _ hr, hid⟩

/-- C4: with `include_all = false` the leaderboard keeps at most one
entry per submission — the best-ranked entry of that submission, i.e.
the first one of the full sorted ranking — and keeps the retained
entries in their full-ranking order; with `include_all = true` the full
sorted ranking is returned. -/

theorem c4_leaderboard_dedup (entries : List RankingEntry) :
    (leaderboard entries false).Sublist entries ∧
      List.Pairwise (fun a b => a.submission_id ≠ b.submission_id)
        (leaderboard entries false) ∧
      (∀ e ∈ leaderboard entries false,
        entries.find? (fun x => x.submission_id == e.submission_id) =
          some e) ∧
      (∀ e ∈ entries, ∃ r ∈ leaderboard entries false,
        r.submission_id = e.submission_id) ∧
      leaderboard entries true = entries := by
  refine ⟨filterTopRanked_sublist [] entries,
    filterTopRanked_pairwise [] entries,
    fun e he => (filterTopRanked_first [] entries e he).2,
    fun e he => ?_, rfl⟩
  cases filterTopRanked_covers [] entries e he with
  | inl h => cases h
  | inr h => exact h

/-- Witness for C4 at a concrete four-entry ranking with two
submissions: only the first entry of each submission survives, in
order. -/

theorem c4_leaderboard_dedup_witness :
    (leaderboard
      [⟨"r1", "s1", []⟩, ⟨"r2", "s2", []⟩, ⟨"r3", "s1", []⟩,
        ⟨"r4", "s2", []⟩] false).Sublist
      [⟨"r1", "s1", []⟩, ⟨"r2", "s2", []⟩, ⟨"r3", "s1", []⟩,
        ⟨"r4", "s2", []⟩] :=
  (c4_leaderboard_dedup
    [⟨"r1", "s1", []⟩, ⟨"r2", "s2", []⟩, ⟨"r3", "s1", []⟩,
      ⟨"r4", "s2", []⟩]).1

/-- C10: on a run handle whose state is not Success, `get_resource`
returns `None` for every identifier and `list_resources` returns the
empty list, without raising; on a Success state both delegate to the
state's recorded files (lookup by resource identifier, and the
dictionary's values). -/

theorem c10_run_resources (h : RunHandle) :
    (h.state.is_success = false →
      (∀ identifier, h.get_resource identifier = none) ∧
        h.list_resources = []) ∧
    (∀ c st f files, h.state = RobState.success c st f files →
      (∀ identifier, h.get_resource identifier =
        (files.find? (fun kv => kv.1 == identifier)).map (fun kv => kv.2)) ∧
        h.list_resources = files.map (fun kv => kv.2)) := by
  constructor
  · intro hns
    constructor
    · intro identifier
      simp [RunHandle.get_resource, RunHandle.is_success, hns]
    · simp [RunHandle.list_resources, RunHandle.is_success, hns]
  · intro c st f files hst
    have hs : h.state.is_success = true := by
      rw [hst]; rfl
    constructor
    · intro identifier
      simp [RunHandle.get_resource, RunHandle.is_success, hs,
        RobState.get_resource, hst, RobState.filesOf, RobState.is_success]
    · simp [RunHandle.list_resources, RunHandle.is_success, hs, hst,
        RobState.filesOf, RobState.is_success]

/-- Witness for C10 on a pending handle and on a successful handle with
one file resource. -/

theorem c10_run_resources_witness :
    (⟨"r1", "s1", RobState.pending 0, []⟩ : RunHandle).get_resource
        "res" = none ∧
      (⟨"r1", "s1", RobState.pending 0, []⟩ :
        RunHandle).list_resources = [] ∧
      (⟨"r2", "s1", RobState.success 0 1 2 [("res", ⟨"res", "f.json"⟩)],
          []⟩ : RunHandle).list_resources = [⟨"res", "f.json"⟩] :=
  ⟨((c10_run_resources ⟨"r1", "s1", RobState.pending 0, []⟩).1 rfl).1 "res",
    ((c10_run_resources ⟨"r1", "s1", RobState.pending 0, []⟩).1 rfl).2,
    ((c10_run_resources
        ⟨"r2", "s1", RobState.success 0 1 2 [("res", ⟨"res", "f.json"⟩)], []⟩).2
      0 1 2 [("res", ⟨"res", "f.json"⟩)] rfl).2⟩

end RobSpec


